import Mathlib

/-!
Verification of the `egotism` audio loopback utility (`src/lib.rs`).

Samples are `f32` in the source; they are embedded as `ℚ`.  Every value that
appears in a claim (0.0, 1.0 .. 5.0, the latency arithmetic at the claimed
inputs) is exactly representable in `f32` and the `f32` operations involved
are exact on them, so exact rational arithmetic is a faithful embedding at
those points; where a claim hinges on the float-to-integer cast, the cast is
modelled separately (`F32.as_usize`).
-/

/-- Modelled from the spec: the ring buffer is `ringbuf::HeapRb`, an external
crate whose source is not part of this repository.  Section 4.1 of the spec
specifies it as a fixed-capacity single-producer/single-consumer FIFO of
samples: `push` fails (reporting full) without overwriting when the buffer is
at capacity, `pop` returns the oldest sample or reports empty.  `data` lists
the stored samples oldest first; `cap` is the fixed capacity. -/
@[ext]
structure HeapRb where
  cap : Nat
  data : List ℚ
deriving DecidableEq

/-- Modelled from the spec: `HeapRb::new(capacity)` creates an empty buffer of
the given fixed capacity. -/
def HeapRb.new (capacity : Nat) : HeapRb :=
  ⟨capacity, []⟩

/-- Modelled from the spec: `push` appends at the tail on success (returns
`true`); when the buffer is at capacity it fails (returns `false`), dropping
the sample and leaving the buffer untouched. -/
def HeapRb.push (rb : HeapRb) (x : ℚ) : HeapRb × Bool :=
  if rb.data.length < rb.cap then (⟨rb.cap, rb.data ++ [x]⟩, true) else (rb, false)

/-- Modelled from the spec: `pop` removes and returns the head (oldest) sample,
or returns `none` when the buffer is empty. -/
def HeapRb.pop : HeapRb → HeapRb × Option ℚ
  | ⟨c, []⟩ => (⟨c, []⟩, none)
  | ⟨c, x :: rest⟩ => (⟨c, rest⟩, some x)

/-- Sequential one-at-a-time pushes, as both the priming loop in `start` and
the capture callback perform them.  The returned flag is `true` when at least
one push failed (the `output_fell_behind` flag of the capture callback). -/
def HeapRb.pushAll : HeapRb → List ℚ → HeapRb × Bool
  | rb, [] => (rb, false)
  | rb, x :: xs =>
    let p := rb.push x
    let r := p.1.pushAll xs
    (r.1, !p.2 || r.2)

/-- Sequential one-at-a-time pops, recording each result. -/
def HeapRb.popN : HeapRb → Nat → HeapRb × List (Option ℚ)
  | rb, 0 => (rb, [])
  | rb, n + 1 =>
    let p := rb.pop
    let r := p.1.popN n
    (r.1, p.2 :: r.2)

/-- Embedding of `input_data_fn` (src/lib.rs lines 65-75): for each sample of
the captured block, attempt `push`; a failure sets `output_fell_behind` and the
loop continues; after the block, the flag decides whether the single aggregated
"output stream fell behind" report is printed.  Returns the updated producer
state and the flag. -/
def input_data_fn (producer : HeapRb) (data : List ℚ) : HeapRb × Bool :=
  producer.pushAll data

/-- Embedding of `output_data_fn` (src/lib.rs lines 77-91): for each of the `n`
slots of the output block, `pop`; on `some s` write `s`, on `none` write `0.0`
and set `input_fell_behind`.  Returns the updated consumer state, the block
written, and the flag that decides the single aggregated "input stream fell
behind" report. -/
def output_data_fn : HeapRb → Nat → HeapRb × List ℚ × Bool
  | rb, 0 => (rb, [], false)
  | rb, n + 1 =>
    let p := rb.pop
    let r := output_data_fn p.1 n
    match p.2 with
    | some s => (r.1, s :: r.2.1, r.2.2)
    | none => (r.1, (0 : ℚ) :: r.2.1, true)

/-- An `f32` value as far as the latency computation is concerned: either NaN
or a finite value embedded as a rational. -/
inductive F32 where
  | nan : F32
  | fin : ℚ → F32
deriving DecidableEq

/-- Embedding of Rust's `as usize` cast on `f32` (src/lib.rs line 52): the
value is truncated toward zero and saturated to the `usize` range, so negative
values and NaN give `0` and huge values give `usize::MAX` (2^64 - 1 on the
64-bit targets this audio code runs on). -/
def F32.as_usize : F32 → Nat
  | F32.nan => 0
  | F32.fin q => if q < 0 then 0 else min (Int.toNat q.floor) (2 ^ 64 - 1)

/-- Embedding of `let latency_frames = (&self.latency / 1_000.0) * config.sample_rate.0 as f32`
(src/lib.rs line 51), in exact rational arithmetic. -/
def latency_frames (latency : ℚ) (sample_rate : Nat) : ℚ :=
  latency / 1000 * sample_rate

/-- Embedding of `let latency_samples = latency_frames as usize * config.channels as usize`
(src/lib.rs line 52). -/
def latency_samples (latency : ℚ) (sample_rate channels : Nat) : Nat :=
  (F32.fin (latency_frames latency sample_rate)).as_usize * channels

/-- Embedding of `HeapRb::<f32>::new(latency_samples * 2)` (src/lib.rs line 55):
the capacity the ring buffer is allocated with. -/
def ring_capacity (latency : ℚ) (sample_rate channels : Nat) : Nat :=
  latency_samples latency sample_rate channels * 2

deriving instance DecidableEq for Except

/-- A device as the resolution code sees it: only the result of its `name()`
call matters (`Ok name` or a name error). -/
structure Device where
  name_res : Except String String
deriving DecidableEq

/-- Whether a device's `name()` call succeeds. -/
def nameOk (d : Device) : Bool :=
  match d.name_res with
  | Except.ok _ => true
  | Except.error _ => false

/-- Embedding of the search predicate
`x.name().map(|y| &stringify!(y) == &self.input_device).unwrap_or(false)`
(src/lib.rs lines 32 and 40): `stringify!(y)` is the literal string "y", so
the device's actual name is never consulted. -/
def device_pred (configured : String) (d : Device) : Bool :=
  match d.name_res with
  | Except.ok _ => "y" == configured
  | Except.error _ => false

/-- The host as the device-resolution code sees it: default devices and the
enumeration results (enumeration itself may fail, which the `?` operator
returns as an error). -/
structure HostM where
  default_input : Option Device
  default_output : Option Device
  input_devices : Except String (List Device)
  output_devices : Except String (List Device)
deriving DecidableEq

/-- Outcome of resolving one device: a handle, an error returned via `?`, or a
panic raised by `.expect(...)`. -/
inductive Resolution where
  | ok : Device → Resolution
  | err : String → Resolution
  | panicked : String → Resolution
deriving DecidableEq

/-- Embedding of input-device resolution (src/lib.rs lines 28-34): the default
device when "default" is configured, otherwise the first enumerated device
satisfying `device_pred`; the trailing `.expect("Failed to find input device!")`
turns `None` into a panic. -/
def find_input_device (h : HostM) (configured : String) : Resolution :=
  if configured == "default" then
    match h.default_input with
    | some d => Resolution.ok d
    | none => Resolution.panicked ("Failed to find input device!")
  else
    match h.input_devices with
    | Except.error e => Resolution.err e
    | Except.ok ds =>
      match ds.find? (device_pred configured) with
      | some d => Resolution.ok d
      | none => Resolution.panicked ("Failed to find input device!")

/-- Embedding of output-device resolution (src/lib.rs lines 36-42), symmetric
to `find_input_device`. -/
def find_output_device (h : HostM) (configured : String) : Resolution :=
  if configured == "default" then
    match h.default_output with
    | some d => Resolution.ok d
    | none => Resolution.panicked ("Failed to find output device!")
  else
    match h.output_devices with
    | Except.error e => Resolution.err e
    | Except.ok ds =>
      match ds.find? (device_pred configured) with
      | some d => Resolution.ok d
      | none => Resolution.panicked ("Failed to find output device!")

/-- How far `start` gets before any stream exists: a panic, a returned error,
or both devices resolved (only then does the code go on to build streams). -/
inductive StartOutcome where
  | panicked : String → StartOutcome
  | err : String → StartOutcome
  | streams_built : Device → Device → StartOutcome
deriving DecidableEq

/-- Embedding of the device-resolution prefix of `start` (src/lib.rs lines
28-42): input device first, then output device; stream construction is reached
only when both resolve. -/
def start_until_streams (h : HostM) (inName outName : String) : StartOutcome :=
  match find_input_device h inName with
  | Resolution.err e => StartOutcome.err e
  | Resolution.panicked m => StartOutcome.panicked m
  | Resolution.ok din =>
    match find_output_device h outName with
    | Resolution.err e => StartOutcome.err e
    | Resolution.panicked m => StartOutcome.panicked m
    | Resolution.ok dout => StartOutcome.streams_built din dout

/-- Whether `start` reached stream construction. -/
def StartOutcome.is_streams_built : StartOutcome → Bool
  | StartOutcome.streams_built _ _ => true
  | _ => false

@[simp]
theorem HeapRb.new_cap (c : Nat) : (HeapRb.new c).cap = c := rfl

@[simp]
theorem HeapRb.new_data (c : Nat) : (HeapRb.new c).data = [] := rfl

theorem HeapRb.pushAll_spec (xs : List ℚ) (rb : HeapRb) (h : rb.data.length ≤ rb.cap) :
    (rb.pushAll xs).1.cap = rb.cap ∧
    (rb.pushAll xs).1.data = rb.data ++ xs.take (rb.cap - rb.data.length) ∧
    ((rb.pushAll xs).2 = true ↔ rb.cap - rb.data.length < xs.length) := by
  induction xs generalizing rb with
  | nil => simp [HeapRb.pushAll]
  | cons x xs ih =>
    obtain ⟨c, l⟩ := rb
    simp only at h
    by_cases hlt : l.length < c
    · have hpush : HeapRb.push ⟨c, l⟩ x = (⟨c, l ++ [x]⟩, true) := by
        simp [HeapRb.push, hlt]
      obtain ⟨c1, c2, c3⟩ := ih ⟨c, l ++ [x]⟩ (by simp; omega)
      simp only at c1 c2 c3
      simp only [List.length_append, List.length_singleton] at c2 c3
      simp only [HeapRb.pushAll, hpush, Bool.not_true, Bool.false_or]
      refine ⟨c1, ?_, ?_⟩
      · rw [c2]
        simp only [List.append_assoc, List.singleton_append]
        obtain ⟨k, hk⟩ : ∃ k, c - l.length = k + 1 := ⟨c - l.length - 1, by omega⟩
        have hk2 : c - (l.length + 1) = k := by omega
        rw [hk, hk2, List.take_succ_cons]
      · rw [c3]
        simp only [List.length_cons]
        omega
    · have hpush : HeapRb.push ⟨c, l⟩ x = (⟨c, l⟩, false) := by
        simp [HeapRb.push, hlt]
      obtain ⟨c1, c2, c3⟩ := ih ⟨c, l⟩ h
      simp only at c1 c2 c3
      have hz : c - l.length = 0 := by omega
      simp only [HeapRb.pushAll, hpush, Bool.not_false, Bool.true_or]
      refine ⟨c1, ?_, ?_⟩
      · rw [c2, hz]
        simp
      · simp only [List.length_cons, hz]
        simp

theorem HeapRb.popN_spec (n : Nat) (rb : HeapRb) :
    (rb.popN n).1.cap = rb.cap ∧
    (rb.popN n).1.data = rb.data.drop n ∧
    (rb.popN n).2 = (rb.data.take n).map some ++ List.replicate (n - rb.data.length) none := by
  induction n generalizing rb with
  | zero => simp [HeapRb.popN]
  | succ n ih =>
    obtain ⟨c, data⟩ := rb
    cases data with
    | nil =>
      obtain ⟨c1, c2, c3⟩ := ih ⟨c, []⟩
      simp only [HeapRb.popN, HeapRb.pop] at *
      refine ⟨c1, by simpa using c2, ?_⟩
      rw [c3]
      simp [List.replicate_succ]
    | cons a t =>
      obtain ⟨c1, c2, c3⟩ := ih ⟨c, t⟩
      simp only [HeapRb.popN, HeapRb.pop] at *
      refine ⟨c1, by simpa using c2, ?_⟩
      rw [c3]
      simp [Nat.succ_sub_succ]

theorem output_data_fn_spec (n : Nat) (rb : HeapRb) :
    (output_data_fn rb n).1.cap = rb.cap ∧
    (output_data_fn rb n).1.data = rb.data.drop n ∧
    (output_data_fn rb n).2.1 = rb.data.take n ++ List.replicate (n - rb.data.length) (0 : ℚ) ∧
    ((output_data_fn rb n).2.2 = true ↔ rb.data.length < n) := by
  induction n generalizing rb with
  | zero => simp [output_data_fn]
  | succ n ih =>
    obtain ⟨c, data⟩ := rb
    cases data with
    | nil =>
      obtain ⟨c1, c2, c3, c4⟩ := ih ⟨c, []⟩
      simp only [output_data_fn, HeapRb.pop] at *
      refine ⟨c1, by simpa using c2, ?_, by simp⟩
      rw [c3]
      simp [List.replicate_succ]
    | cons a t =>
      obtain ⟨c1, c2, c3, c4⟩ := ih ⟨c, t⟩
      simp only [output_data_fn, HeapRb.pop] at *
      refine ⟨c1, by simpa using c2, ?_, ?_⟩
      · rw [c3]
        simp [Nat.succ_sub_succ]
      · rw [c4]
        simp only [List.length_cons]
        omega

theorem prime_ok (n : Nat) :
    ((HeapRb.new (n * 2)).pushAll (List.replicate n 0)).2 = false ∧
    ((HeapRb.new (n * 2)).pushAll (List.replicate n 0)).1.data = List.replicate n 0 := by
  obtain ⟨c1, c2, c3⟩ :=
    HeapRb.pushAll_spec (List.replicate n 0) (HeapRb.new (n * 2)) (by simp [HeapRb.new])
  simp only [HeapRb.new_cap, HeapRb.new_data, List.length_nil, Nat.sub_zero,
    List.nil_append, List.length_replicate] at c2 c3
  constructor
  · refine Bool.eq_false_iff.mpr fun hf => ?_
    have := c3.mp hf
    omega
  · rw [c2, List.take_of_length_le (by simp; omega)]

/-- C1: FIFO order — pushing a sequence of samples into a fresh ring buffer
with no push failing due to a full buffer, then popping as many times, yields
exactly the pushed sequence in the same order. -/
theorem fifo_order (C : Nat) (xs : List ℚ)
    (h : ((HeapRb.new C).pushAll xs).2 = false) :
    (((HeapRb.new C).pushAll xs).1.popN xs.length).2 = xs.map some := by
  obtain ⟨c1, c2, c3⟩ := HeapRb.pushAll_spec xs (HeapRb.new C) (by simp [HeapRb.new])
  simp only [HeapRb.new_cap, HeapRb.new_data, List.length_nil, Nat.sub_zero,
    List.nil_append] at c2 c3
  have hlen : xs.length ≤ C := by
    rcases Nat.lt_or_ge C xs.length with hc | hc
    · rw [c3.mpr hc] at h
      exact absurd h (by simp)
    · exact hc
  have hdata : ((HeapRb.new C).pushAll xs).1.data = xs :=
    by rw [c2, List.take_of_length_le hlen]
  obtain ⟨p1, p2, p3⟩ := HeapRb.popN_spec xs.length ((HeapRb.new C).pushAll xs).1
  rw [p3, hdata]
  simp

/-- Witness for C1 at capacity 3 and pushed sequence [1, 2, 3]. -/
theorem fifo_order_witness :
    ((HeapRb.new 3).pushAll [1, 2, 3]).2 = false ∧
    (((HeapRb.new 3).pushAll [1, 2, 3]).1.popN 3).2 = [some 1, some 2, some 3] :=
  ⟨by decide, fifo_order 3 [1, 2, 3] (by decide)⟩

/-- C2: capacity invariant — after a fresh buffer of capacity C absorbs C
samples (every push succeeding), a further push fails reporting full and
leaves the stored samples untouched, so the next push fails again; and once
one pop occurs (for 0 < C) a push succeeds again. -/
theorem capacity_invariant (C : Nat) (xs : List ℚ) (y z w : ℚ)
    (h : xs.length = C) :
    ((HeapRb.new C).pushAll xs).2 = false ∧
    (((HeapRb.new C).pushAll xs).1.push y).2 = false ∧
    (((HeapRb.new C).pushAll xs).1.push y).1 = ((HeapRb.new C).pushAll xs).1 ∧
    ((((HeapRb.new C).pushAll xs).1.push y).1.push z).2 = false ∧
    (0 < C → (((HeapRb.new C).pushAll xs).1.pop.1.push w).2 = true) := by
  obtain ⟨c1, c2, c3⟩ := HeapRb.pushAll_spec xs (HeapRb.new C) (by simp [HeapRb.new])
  simp only [HeapRb.new_cap, HeapRb.new_data, List.length_nil, Nat.sub_zero,
    List.nil_append] at c1 c2 c3
  have hdata : ((HeapRb.new C).pushAll xs).1.data = xs := by
    rw [c2, ← h, List.take_length]
  have hst : ((HeapRb.new C).pushAll xs).1 = (⟨C, xs⟩ : HeapRb) :=
    HeapRb.ext c1 hdata
  have hflag : ((HeapRb.new C).pushAll xs).2 = false := by
    refine Bool.eq_false_iff.mpr fun hf => ?_
    have := c3.mp hf
    omega
  refine ⟨hflag, ?_, ?_, ?_, ?_⟩
  · rw [hst]
    simp [HeapRb.push, h]
  · rw [hst]
    simp [HeapRb.push, h]
  · rw [hst]
    simp [HeapRb.push, h]
  · intro hC
    rw [hst]
    cases xs with
    | nil =>
      simp only [List.length_nil] at h
      omega
    | cons a t =>
      have ht : t.length < C := by
        simp only [List.length_cons] at h
        omega
      simp [HeapRb.pop, HeapRb.push, ht]

/-- Witness for C2 at capacity 3, fill [1, 2, 3], extra pushes 9, 8, 7. -/
theorem capacity_invariant_witness :
    ([1, 2, 3] : List ℚ).length = 3 ∧
    (((HeapRb.new 3).pushAll [1, 2, 3]).2 = false ∧
      (((HeapRb.new 3).pushAll [1, 2, 3]).1.push 9).2 = false ∧
      (((HeapRb.new 3).pushAll [1, 2, 3]).1.push 9).1 = ((HeapRb.new 3).pushAll [1, 2, 3]).1 ∧
      ((((HeapRb.new 3).pushAll [1, 2, 3]).1.push 9).1.push 8).2 = false ∧
      (0 < 3 → (((HeapRb.new 3).pushAll [1, 2, 3]).1.pop.1.push 7).2 = true)) :=
  ⟨by decide, capacity_invariant 3 [1, 2, 3] 9 8 7 (by decide)⟩

/-- C3: the ring buffer is allocated with capacity exactly twice the computed
latency_samples, exactly latency_samples zero samples are pushed before the
streams start, and every priming push succeeds (the `unwrap` in the priming
loop never panics), leaving exactly those zeros stored. -/
theorem priming_succeeds (latency : ℚ) (sr ch : Nat) :
    ring_capacity latency sr ch = 2 * latency_samples latency sr ch ∧
    ((HeapRb.new (ring_capacity latency sr ch)).pushAll
        (List.replicate (latency_samples latency sr ch) 0)).2 = false ∧
    ((HeapRb.new (ring_capacity latency sr ch)).pushAll
        (List.replicate (latency_samples latency sr ch) 0)).1.data
      = List.replicate (latency_samples latency sr ch) 0 :=
  ⟨Nat.mul_comm _ 2, (prime_ok (latency_samples latency sr ch)).1,
    (prime_ok (latency_samples latency sr ch)).2⟩

/-- C5: the render callback writes every slot of the requested block — the
popped samples in FIFO order, then exactly 0.0 in each slot whose pop reported
empty — the written block length equals the requested length regardless of
underrun, and the single aggregated "input fell behind" flag is set precisely
when at least one slot was zero-filled. -/
theorem render_fills_block (rb : HeapRb) (n : Nat) :
    (output_data_fn rb n).2.1.length = n ∧
    (output_data_fn rb n).2.1 = rb.data.take n ++ List.replicate (n - rb.data.length) 0 ∧
    ((output_data_fn rb n).2.2 = true ↔ rb.data.length < n) := by
  obtain ⟨c1, c2, c3, c4⟩ := output_data_fn_spec n rb
  refine ⟨?_, c3, c4⟩
  rw [c3]
  simp only [List.length_append, List.length_take, List.length_replicate]
  omega

/-- C6: the capture callback attempts to push every sample of the block in
order — exactly the samples fitting in the free space are appended, a failed
push drops only its own sample and never aborts the loop — and the single
aggregated "output fell behind" flag is set precisely when some push failed. -/
theorem capture_pushes_all (rb : HeapRb) (block : List ℚ)
    (h : rb.data.length ≤ rb.cap) :
    (input_data_fn rb block).1.cap = rb.cap ∧
    (input_data_fn rb block).1.data = rb.data ++ block.take (rb.cap - rb.data.length) ∧
    ((input_data_fn rb block).2 = true ↔ rb.cap - rb.data.length < block.length) :=
  HeapRb.pushAll_spec block rb h

/-- Witness for C6 on a buffer of capacity 2 holding one sample, block
[7, 8, 9]: only 7 fits, 8 and 9 are dropped, the flag is raised. -/
theorem capture_pushes_all_witness :
    (1 : Nat) ≤ 2 ∧
    ((input_data_fn ⟨2, [5]⟩ [7, 8, 9]).1.cap = 2 ∧
      (input_data_fn ⟨2, [5]⟩ [7, 8, 9]).1.data = [5] ++ [7, 8, 9].take 1 ∧
      ((input_data_fn ⟨2, [5]⟩ [7, 8, 9]).2 = true ↔ 1 < 3)) :=
  ⟨by decide, capture_pushes_all ⟨2, [5]⟩ [7, 8, 9] (by decide)⟩

/-- C7 counterexample: in the end-to-end scenario (capacity 20, primed with 10
zeros, then 1..5 pushed) the 13th pop returns `some 3` — three samples are
still stored after 12 pops — not `none` as the spec's scenario expects. -/
theorem end_to_end_cex :
    ((((HeapRb.new 20).pushAll (List.replicate 10 0)).1.pushAll
        [1, 2, 3, 4, 5]).1.popN 13).2
      = List.replicate 10 (some 0) ++ [some 1, some 2, some 3] := by decide

/-- C7 (amended): in the same scenario the first 12 pops return ten zeros then
1 and 2; pops 13-15 return 3, 4, 5; the 16th pop and every further pop return
`none` until a new push occurs, after which pop returns the new sample. -/
theorem end_to_end_amended :
    ((((HeapRb.new 20).pushAll (List.replicate 10 0)).1.pushAll
        [1, 2, 3, 4, 5]).1.popN 12).2
      = List.replicate 10 (some 0) ++ [some 1, some 2] ∧
    ((((HeapRb.new 20).pushAll (List.replicate 10 0)).1.pushAll
        [1, 2, 3, 4, 5]).1.popN 18).2
      = List.replicate 10 (some 0)
          ++ [some 1, some 2, some 3, some 4, some 5, none, none, none] ∧
    ((((((HeapRb.new 20).pushAll (List.replicate 10 0)).1.pushAll
        [1, 2, 3, 4, 5]).1.popN 16).1.push 9).1.pop).2 = some 9 := by decide

theorem intFloor_as_ratFloor (q : ℚ) : ⌊q⌋ = q.floor :=
  Rat.floor_def.trans (Rat.floor_def' q).symm

theorem latency_frames_at_150 : latency_frames 150 48000 = 7200 := by
  norm_num [latency_frames]

/-- C4 counterexample: at latency 31.25 ms and sample rate 44120 Hz (both
exactly representable, with the `f32` arithmetic exact: 31.25 / 1000 = 1/32
and 44120 / 32 = 1378.75), the code's cast computes 1378 while rounding would
give 1379 — the primer truncates, it does not round. -/
theorem latency_round_cex :
    (F32.fin (latency_frames (125 / 4) 44120)).as_usize = 1378 ∧
    round (latency_frames (125 / 4) 44120) = 1379 := by
  have hf : latency_frames (125 / 4) 44120 = Rat.divInt 5515 4 := by
    rw [Rat.divInt_eq_div]
    norm_num [latency_frames]
  constructor
  · rw [hf]
    decide
  · rw [hf, round_eq, intFloor_as_ratFloor]
    have h2 : (Rat.divInt 5515 4 + 1 / 2 : ℚ) = Rat.divInt 5517 4 := by
      rw [Rat.divInt_eq_div, Rat.divInt_eq_div]
      norm_num
    rw [h2]
    decide

/-- C4 (amended): the primer computes latency_frames = latency_ms / 1000 *
sample_rate and converts it to a sample count by truncation toward zero (not
rounding), then multiplies by the channel count; at latency_ms = 150,
sample_rate = 48000, channel_count = 2 it computes latency_frames = 7200,
latency_samples = 14400 and allocates capacity 28800. -/
theorem latency_primer_truncates (latency : ℚ) (sr ch : Nat)
    (h : Int.toNat (latency_frames latency sr).floor ≤ 2 ^ 64 - 1) :
    latency_samples latency sr ch = Int.toNat (latency_frames latency sr).floor * ch ∧
    (F32.fin (latency_frames 150 48000)).as_usize = 7200 ∧
    latency_samples 150 48000 2 = 14400 ∧
    ring_capacity 150 48000 2 = 28800 := by
  refine ⟨?_, ?_, ?_, ?_⟩
  case refine_2 =>
    rw [latency_frames_at_150]
    decide
  case refine_3 =>
    unfold latency_samples
    rw [latency_frames_at_150]
    decide
  case refine_4 =>
    unfold ring_capacity latency_samples
    rw [latency_frames_at_150]
    decide
  unfold latency_samples
  simp only [F32.as_usize]
  by_cases hneg : latency_frames latency sr < 0
  · rw [if_pos hneg]
    have h1 : (latency_frames latency sr).floor < 0 := by
      rw [← intFloor_as_ratFloor, Int.floor_lt]
      exact_mod_cast hneg
    rw [Int.toNat_of_nonpos (le_of_lt h1)]
  · rw [if_neg hneg, min_eq_left h]

/-- Witness for the amended C4 at the spec's 150 ms, 48 kHz, stereo inputs. -/
theorem latency_primer_truncates_witness :
    Int.toNat (latency_frames 150 48000).floor ≤ 2 ^ 64 - 1 ∧
    (latency_samples 150 48000 2 = Int.toNat (latency_frames 150 48000).floor * 2 ∧
      (F32.fin (latency_frames 150 48000)).as_usize = 7200 ∧
      latency_samples 150 48000 2 = 14400 ∧
      ring_capacity 150 48000 2 = 28800) :=
  ⟨by rw [latency_frames_at_150]; decide,
    latency_primer_truncates 150 48000 2 (by rw [latency_frames_at_150]; decide)⟩

theorem as_usize_nonpos (q : ℚ) (hq : q ≤ 0) : (F32.fin q).as_usize = 0 := by
  rcases lt_or_eq_of_le hq with hlt | heq
  · simp only [F32.as_usize]
    rw [if_pos hlt]
  · rw [heq]
    decide

/-- C10: the f32-to-usize conversion is a saturating truncation toward zero —
NaN gives 0 and every finite value gives its floor clamped into the usize
range, so negative values give 0; in particular a negative configured latency
yields latency_samples = 0 and a zero-capacity buffer, with no panic at this
computation. -/
theorem cast_saturating_trunc (r latency : ℚ) (sr ch : Nat) (h : latency < 0) :
    F32.as_usize F32.nan = 0 ∧
    (F32.fin r).as_usize = min (Int.toNat r.floor) (2 ^ 64 - 1) ∧
    latency_samples latency sr ch = 0 ∧
    ring_capacity latency sr ch = 0 := by
  have hq : latency_frames latency sr ≤ 0 := by
    unfold latency_frames
    have h1 : latency / 1000 ≤ 0 := le_of_lt (div_neg_of_neg_of_pos h (by norm_num))
    exact mul_nonpos_of_nonpos_of_nonneg h1 (Nat.cast_nonneg sr)
  have h3 : latency_samples latency sr ch = 0 := by
    unfold latency_samples
    rw [as_usize_nonpos _ hq, Nat.zero_mul]
  refine ⟨rfl, ?_, h3, ?_⟩
  · simp only [F32.as_usize]
    by_cases hneg : r < 0
    · rw [if_pos hneg]
      have h1 : r.floor < 0 := by
        rw [← intFloor_as_ratFloor, Int.floor_lt]
        exact_mod_cast hneg
      rw [Int.toNat_of_nonpos (le_of_lt h1), Nat.zero_min]
    · rw [if_neg hneg]
  · unfold ring_capacity
    rw [h3]

/-- Witness for C10 at r = 13.5 (fraction discarded) and latency -5 ms. -/
theorem cast_saturating_trunc_witness :
    (-5 : ℚ) < 0 ∧
    (F32.as_usize F32.nan = 0 ∧
      (F32.fin (27 / 2)).as_usize = min (Int.toNat (27 / 2 : ℚ).floor) (2 ^ 64 - 1) ∧
      latency_samples (-5) 48000 2 = 0 ∧
      ring_capacity (-5) 48000 2 = 0) :=
  ⟨by decide, cast_saturating_trunc (27 / 2) (-5) 48000 2 (by decide)⟩

/-- C8 counterexample: on a host with no default input device, starting with
the default device names aborts with the `expect` panic
"Failed to find input device!" — a panic, not an error returned to the
caller; symmetrically, on a host whose default input exists but which has no
default output device, start aborts with the panic
"Failed to find output device!". -/
theorem device_panic_cex :
    start_until_streams ⟨none, none, Except.ok [], Except.ok []⟩ "default" "default"
      = StartOutcome.panicked ("Failed to find input device!") ∧
    start_until_streams ⟨some ⟨Except.ok "mic"⟩, none, Except.ok [], Except.ok []⟩
        "default" "default"
      = StartOutcome.panicked ("Failed to find output device!") := by decide

/-- C8 (amended): whenever the configured input or output device matches no
device — "default" requested with no default present, or a named search
finding no match — `start` aborts with the corresponding `expect` panic
("Failed to find input device!" or "Failed to find output device!"), a panic
rather than a returned error, and stream construction is never reached, so no
streams are left running.  The first host exercises the failing input device;
the second host (whose input resolves to `din`) exercises the failing output
device. -/
theorem device_not_found_panics (dOut : Option Device)
    (enumOut : Except String (List Device)) (din : Device)
    (enumIn : Except String (List Device)) (cfg outName : String)
    (ds ds2 : List Device)
    (h2 : (cfg == "default") = false)
    (h4 : ds.find? (device_pred cfg) = none)
    (h5 : (outName == "default") = false)
    (h6 : ds2.find? (device_pred outName) = none) :
    find_input_device ⟨none, dOut, Except.ok ds, enumOut⟩ "default"
      = Resolution.panicked ("Failed to find input device!") ∧
    find_input_device ⟨none, dOut, Except.ok ds, enumOut⟩ cfg
      = Resolution.panicked ("Failed to find input device!") ∧
    (start_until_streams ⟨none, dOut, Except.ok ds, enumOut⟩ "default"
        outName).is_streams_built = false ∧
    (start_until_streams ⟨none, dOut, Except.ok ds, enumOut⟩ cfg
        outName).is_streams_built = false ∧
    find_output_device ⟨some din, none, enumIn, Except.ok ds2⟩ "default"
      = Resolution.panicked ("Failed to find output device!") ∧
    find_output_device ⟨some din, none, enumIn, Except.ok ds2⟩ outName
      = Resolution.panicked ("Failed to find output device!") ∧
    start_until_streams ⟨some din, none, enumIn, Except.ok ds2⟩ "default" "default"
      = StartOutcome.panicked ("Failed to find output device!") ∧
    start_until_streams ⟨some din, none, enumIn, Except.ok ds2⟩ "default" outName
      = StartOutcome.panicked ("Failed to find output device!") ∧
    (start_until_streams ⟨some din, none, enumIn, Except.ok ds2⟩ "default"
        outName).is_streams_built = false := by
  have hA : find_input_device ⟨none, dOut, Except.ok ds, enumOut⟩ "default"
      = Resolution.panicked ("Failed to find input device!") := rfl
  have hB : find_input_device ⟨none, dOut, Except.ok ds, enumOut⟩ cfg
      = Resolution.panicked ("Failed to find input device!") := by
    unfold find_input_device
    rw [h2]
    show (match List.find? (device_pred cfg) ds with
      | some d => Resolution.ok d
      | none => Resolution.panicked ("Failed to find input device!"))
      = Resolution.panicked ("Failed to find input device!")
    rw [h4]
  have hOutA : find_output_device ⟨some din, none, enumIn, Except.ok ds2⟩ "default"
      = Resolution.panicked ("Failed to find output device!") := rfl
  have hOutB : find_output_device ⟨some din, none, enumIn, Except.ok ds2⟩ outName
      = Resolution.panicked ("Failed to find output device!") := by
    unfold find_output_device
    rw [h5]
    show (match List.find? (device_pred outName) ds2 with
      | some d => Resolution.ok d
      | none => Resolution.panicked ("Failed to find output device!"))
      = Resolution.panicked ("Failed to find output device!")
    rw [h6]
  have hS1 : start_until_streams ⟨some din, none, enumIn, Except.ok ds2⟩
      "default" "default" = StartOutcome.panicked ("Failed to find output device!") := by
    unfold start_until_streams
    rw [hOutA]
    rfl
  have hS2 : start_until_streams ⟨some din, none, enumIn, Except.ok ds2⟩
      "default" outName = StartOutcome.panicked ("Failed to find output device!") := by
    unfold start_until_streams
    rw [hOutB]
    rfl
  refine ⟨hA, hB, ?_, ?_, hOutA, hOutB, hS1, hS2, ?_⟩
  · unfold start_until_streams
    rw [hA]
    rfl
  · unfold start_until_streams
    rw [hB]
    rfl
  · rw [hS2]
    rfl

/-- Witness for the amended C8: input side on an empty host with configured
input name "front"; output side on a host whose default input is a device
"mic" but which has no default output, with configured output name "rear". -/
theorem device_not_found_panics_witness :
    (("front" == "default") = false) ∧
    (("rear" == "default") = false) ∧
    (find_input_device ⟨none, none, Except.ok [], Except.ok []⟩ "default"
        = Resolution.panicked ("Failed to find input device!") ∧
      find_input_device ⟨none, none, Except.ok [], Except.ok []⟩ "front"
        = Resolution.panicked ("Failed to find input device!") ∧
      (start_until_streams ⟨none, none, Except.ok [], Except.ok []⟩
          "default" "rear").is_streams_built = false ∧
      (start_until_streams ⟨none, none, Except.ok [], Except.ok []⟩
          "front" "rear").is_streams_built = false ∧
      find_output_device ⟨some ⟨Except.ok "mic"⟩, none, Except.ok [], Except.ok []⟩
          "default"
        = Resolution.panicked ("Failed to find output device!") ∧
      find_output_device ⟨some ⟨Except.ok "mic"⟩, none, Except.ok [], Except.ok []⟩
          "rear"
        = Resolution.panicked ("Failed to find output device!") ∧
      start_until_streams ⟨some ⟨Except.ok "mic"⟩, none, Except.ok [], Except.ok []⟩
          "default" "default"
        = StartOutcome.panicked ("Failed to find output device!") ∧
      start_until_streams ⟨some ⟨Except.ok "mic"⟩, none, Except.ok [], Except.ok []⟩
          "default" "rear"
        = StartOutcome.panicked ("Failed to find output device!") ∧
      (start_until_streams ⟨some ⟨Except.ok "mic"⟩, none, Except.ok [], Except.ok []⟩
          "default" "rear").is_streams_built = false) :=
  ⟨by decide, by decide,
    device_not_found_panics none (Except.ok []) ⟨Except.ok "mic"⟩ (Except.ok [])
      "front" "rear" [] [] (by decide) rfl (by decide) rfl⟩

/-- C9: the device-search predicate compares the configured name against the
constant string "y" — the `stringify!` of the closure parameter — never
against the device's reported name: it holds iff the `name()` call succeeded
and the configured name is exactly "y", regardless of which device it is. -/
theorem stringify_match_bug (d : Device) (cfg : String) (s t : String) :
    (device_pred cfg d = true ↔ (nameOk d = true ∧ cfg = "y")) ∧
    device_pred cfg ⟨Except.ok s⟩ = device_pred cfg ⟨Except.ok t⟩ := by
  obtain ⟨nr⟩ := d
  constructor
  · cases nr with
    | ok v =>
      simp only [device_pred, nameOk, beq_iff_eq, eq_self_iff_true, true_and]
      exact eq_comm
    | error e => simp [device_pred, nameOk]
  · rfl

